import Mathlib

/-!
Verification of the matrix-multiplication performance-modeling engine
(`Matrix`, `TPUv5e`, `H100` classes).

Embedding conventions.
JS numbers are IEEE doubles; this development models the arithmetic
exactly over `ℚ`, which agrees with the source wherever a claim is
insensitive to rounding.  The one place where rounding changes a
discrete outcome — the roofline sampling loop counter, whose
accumulated `+= 0.1` error changes the iteration count — is modelled
with an explicit round-to-nearest-even model of binary64 (`roundDouble`
below).  `Math.log2` returns an irrational real for arguments that are
not powers of two, which `ℚ` cannot represent, so the multi-device
metric functions take the log2 oracle as an explicit function argument
`l2f : ℕ → ℚ`; on powers of two (the intended usage per the sharding
model) `Math.log2 n` is exactly `Nat.log2 n`.  Likewise
`Math.pow(10, i)` is irrational for fractional `i`, so the roofline
generators take a `pow10 : ℚ → ℚ` oracle; no claim depends on its
values.  Thrown JS `Error`s are modelled by `Except AnalyzerError`,
with one constructor per distinct error condition of the engine.
-/

namespace Gpu

/-- The `dtype` const enum: element types of operands and outputs. -/
inductive dtype where
  | bf16 | fp32 | int8 | int4 | fp8
deriving DecidableEq, Repr

/-- Operand descriptor: a 2-element shape `[rows, cols]` and an element type. -/
structure matinfo where
  shape : ℕ × ℕ
  dtype : dtype
deriving DecidableEq, Repr

/-- The error taxonomy of the engine: each constructor corresponds to one
distinct thrown `Error` message in the source (`Matrix with ID ... not found`,
`Sharding configuration required for multi-node analysis`,
`Only matrix multiplication is supported currently`). -/
inductive AnalyzerError where
  | notFound | missingConfiguration | unsupportedOperation
deriving DecidableEq, Repr

/-- The `Matrix` value object.  The `operation` const enum compiles to string
literals at runtime and the source guards with `this.type !== "matmul"`, so
the kind is carried as its runtime string. -/
structure Matrix where
  id : String
  type : String
  lhs : matinfo
  rhs : matinfo
  output : dtype
deriving DecidableEq, Repr

/-- The `bytesPerElement` table of `Matrix.calculateBytes`. -/
def bytesPerElement : dtype → ℚ
  | .bf16 => 2
  | .fp32 => 4
  | .int8 => 1
  | .int4 => 1/2
  | .fp8 => 1

/-- The value `2 * B * D * F` returned by `calculateFLOPs` in the
matrix-multiply case. -/
def Matrix.flopsValue (m : Matrix) : ℚ :=
  2 * (m.lhs.shape.1 : ℚ) * (m.lhs.shape.2 : ℚ) * (m.rhs.shape.2 : ℚ)

/-- `Matrix.calculateFLOPs`: throws `UnsupportedOperation` unless the kind is
`"matmul"`, else returns `2 * B * D * F`. -/
def Matrix.calculateFLOPs (m : Matrix) : Except AnalyzerError ℚ :=
  if m.type = "matmul" then .ok m.flopsValue else .error .unsupportedOperation

/-- The record returned by `Matrix.calculateBytes`. -/
structure MatrixBytes where
  LHSBytes : ℚ
  RHSBytes : ℚ
  outputBytes : ℚ
  totalBytes : ℚ
deriving DecidableEq, Repr

/-- `Matrix.calculateBytes`: per-operand byte footprints from the
`bytesPerElement` table; output bytes are `B * F * w(outputType)`. -/
def Matrix.calculateBytes (m : Matrix) : MatrixBytes :=
  let lhsBytes := (m.lhs.shape.1 : ℚ) * (m.lhs.shape.2 : ℚ) * bytesPerElement m.lhs.dtype
  let rhsBytes := (m.rhs.shape.1 : ℚ) * (m.rhs.shape.2 : ℚ) * bytesPerElement m.rhs.dtype
  let outputBytes := (m.lhs.shape.1 : ℚ) * (m.rhs.shape.2 : ℚ) * bytesPerElement m.output
  { LHSBytes := lhsBytes
    RHSBytes := rhsBytes
    outputBytes := outputBytes
    totalBytes := lhsBytes + rhsBytes + outputBytes }

/-- `Matrix.calculateArithmeticIntensity` in the non-throwing (matmul) case:
FLOPs divided by total bytes. -/
def Matrix.intensityValue (m : Matrix) : ℚ :=
  m.flopsValue / m.calculateBytes.totalBytes

/-- Tiling utilization for one dimension against one tiling-unit size, shared
by the MXU and tensor-core utilization fields: `1.0` when the dimension is an
exact multiple of the unit, else `dim / Math.ceil(dim / unit) / unit`. -/
def tileUtil (dim unit : ℕ) : ℚ :=
  if dim % unit = 0 then 1
  else (dim : ℚ) / (⌈(dim : ℚ) / (unit : ℚ)⌉ : ℚ) / (unit : ℚ)

/-- `ShardingConfig`: shard-dimension fields are checked against `null` in the
source, so they are options; the meaningful values are the two axes. -/
structure ShardingConfig where
  numDevices : ℕ
  lhsShardDim : Option (Fin 2)
  rhsShardDim : Option (Fin 2)
deriving DecidableEq, Repr

namespace TPUv5e

def flopsPerSecondBF16 : ℚ := 1.97e14
def flopsPerSecondINT8 : ℚ := 3.94e14
def hbmBandwidth : ℚ := 8.1e11
def vmemCapacity : ℚ := 128e6
def vmemBandwidth : ℚ := 1.78e13
def iciBidiBandwidth : ℚ := 9e10
def mxuDim0 : ℕ := 128
def mxuDim1 : ℕ := 128

end TPUv5e

/-- `mxuUtilization` record of the TPU single-node metrics. -/
structure MXUUtilization where
  lhsUtilization : ℚ
  rhsUtilizationRows : ℚ
  rhsUtilizationCols : ℚ
deriving DecidableEq, Repr

/-- `vmemMetrics` record of the TPU single-node metrics. -/
structure VMEMMetrics where
  fitsInVMEM : Bool
  vmemComputeTime : ℚ
  vmemMemoryTime : ℚ
  vmemTotalTime : ℚ
  vmemSpeedup : ℚ
deriving DecidableEq, Repr

structure TPUNodeMetrics where
  totalFLOPs : ℚ
  bytes : MatrixBytes
  arithmeticIntensity : ℚ
  peakHardwareIntensity : ℚ
  isComputeBound : Bool
  computeTime : ℚ
  memoryTime : ℚ
  lowerBoundTime : ℚ
  upperBoundTime : ℚ
  mxuUtilization : MXUUtilization
  vmemMetrics : VMEMMetrics
deriving DecidableEq, Repr

/-- `TPUv5e._calculateSingleNodeMetrics`. -/
def TPUv5e.calculateSingleNodeMetrics (m : Matrix) : TPUNodeMetrics :=
  let B := m.lhs.shape.1
  let D := m.lhs.shape.2
  let F := m.rhs.shape.2
  let bytes := m.calculateBytes
  let totalFLOPs := m.flopsValue
  let arithmeticIntensity := m.intensityValue
  let flopsPerSecond := if m.lhs.dtype = .int8 then flopsPerSecondINT8 else flopsPerSecondBF16
  let peakHardwareIntensity := flopsPerSecond / hbmBandwidth
  let isComputeBound := decide (arithmeticIntensity > peakHardwareIntensity)
  let computeTime := totalFLOPs / flopsPerSecond
  let memoryTime := bytes.totalBytes / hbmBandwidth
  let mxuUtilization : MXUUtilization :=
    { lhsUtilization := tileUtil B mxuDim0
      rhsUtilizationRows := tileUtil D mxuDim0
      rhsUtilizationCols := tileUtil F mxuDim1 }
  let fitsInVMEM := decide (bytes.LHSBytes + bytes.RHSBytes ≤ vmemCapacity)
  let vmemComputeTime := computeTime
  let vmemMemoryTime := bytes.totalBytes / vmemBandwidth
  let vmemTotalTime := max vmemComputeTime vmemMemoryTime
  let vmemMetrics : VMEMMetrics :=
    { fitsInVMEM
      vmemComputeTime
      vmemMemoryTime
      vmemTotalTime
      vmemSpeedup := memoryTime / vmemMemoryTime }
  let lowerBoundTime := max computeTime memoryTime
  let upperBoundTime := computeTime + memoryTime
  { totalFLOPs
    bytes
    arithmeticIntensity
    peakHardwareIntensity
    isComputeBound
    computeTime
    memoryTime
    lowerBoundTime
    upperBoundTime
    mxuUtilization
    vmemMetrics }

namespace H100

def flopsPerSecondBF16 : ℚ := 9.89e14
def flopsPerSecondFP32 : ℚ := 6.7e13
def flopsPerSecondINT8 : ℚ := 1.979e15
def flopsPerSecondFP8 : ℚ := 3.958e15
def hbmBandwidth : ℚ := 3.35e12
def l2CacheSize : ℚ := 50e6
def nvlinkBandwidth : ℚ := 9e10 * 18
def pcieBandwidth : ℚ := 8e10
def tcM : ℕ := 4
def tcN : ℕ := 4
def tcK : ℕ := 16
def smCount : ℕ := 132
def maxGpusPerNode : ℕ := 256

end H100

/-- `tensorCoreUtilization` record of the GPU single-node metrics. -/
structure TensorCoreUtilization where
  mUtilization : ℚ
  nUtilization : ℚ
  kUtilization : ℚ
deriving DecidableEq, Repr

structure GPUNodeMetrics where
  totalFLOPs : ℚ
  bytes : MatrixBytes
  arithmeticIntensity : ℚ
  peakHardwareIntensity : ℚ
  isComputeBound : Bool
  computeTime : ℚ
  memoryTime : ℚ
  effectiveMemoryTime : ℚ
  lowerBoundTime : ℚ
  upperBoundTime : ℚ
  tensorCoreUtilization : TensorCoreUtilization
  smOccupancy : ℚ
  canFitWeightsInL2 : Bool
  l2CacheBenefit : ℚ
deriving DecidableEq, Repr

/-- The `switch` on the left operand's element type selecting the H100 peak
throughput; unknown types fall back to the bf16 rate. -/
def H100.selectFlopsPerSecond (d : dtype) : ℚ :=
  match d with
  | .bf16 => flopsPerSecondBF16
  | .fp32 => flopsPerSecondFP32
  | .int8 => flopsPerSecondINT8
  | .fp8 => flopsPerSecondFP8
  | _ => flopsPerSecondBF16

/-- `H100._calculateSingleNodeMetrics`. -/
def H100.calculateSingleNodeMetrics (m : Matrix) : GPUNodeMetrics :=
  let B := m.lhs.shape.1
  let D := m.lhs.shape.2
  let F := m.rhs.shape.2
  let bytes := m.calculateBytes
  let totalFLOPs := m.flopsValue
  let arithmeticIntensity := m.intensityValue
  let flopsPerSecond := selectFlopsPerSecond m.lhs.dtype
  let peakHardwareIntensity := flopsPerSecond / hbmBandwidth
  let isComputeBound := decide (arithmeticIntensity > peakHardwareIntensity)
  let computeTime := totalFLOPs / flopsPerSecond
  let memoryTime := bytes.totalBytes / hbmBandwidth
  let tensorCoreUtilization : TensorCoreUtilization :=
    { mUtilization := tileUtil B tcM
      nUtilization := tileUtil F tcN
      kUtilization := tileUtil D tcK }
  let warpsPerSM : ℕ := 64
  let threadsPerWarp : ℕ := 32
  let threadsPerBlock : ℕ := 256
  let blocksPerSM : ℕ := min 16 (warpsPerSM * threadsPerWarp / threadsPerBlock)
  let blocksNeeded : ℤ := ⌈(B : ℚ) / 32⌉ * ⌈(F : ℚ) / 32⌉
  let smOccupancy : ℚ := min 1 ((blocksNeeded : ℚ) / ((blocksPerSM : ℚ) * (smCount : ℚ)))
  let canFitWeightsInL2 := decide (bytes.RHSBytes ≤ l2CacheSize)
  let l2CacheBenefit : ℚ := if canFitWeightsInL2 = true then 1.5 else 1.0
  let effectiveMemoryTime := memoryTime / l2CacheBenefit
  let lowerBoundTime := max computeTime effectiveMemoryTime
  let upperBoundTime := computeTime + effectiveMemoryTime
  { totalFLOPs
    bytes
    arithmeticIntensity
    peakHardwareIntensity
    isComputeBound
    computeTime
    memoryTime
    effectiveMemoryTime
    lowerBoundTime
    upperBoundTime
    tensorCoreUtilization
    smOccupancy
    canFitWeightsInL2
    l2CacheBenefit }

/-- Read one entry of a 2-element shape. -/
def getDim (s : ℕ × ℕ) (d : Fin 2) : ℕ :=
  if d = 0 then s.1 else s.2

/-- Write one entry of a 2-element shape. -/
def setDim (s : ℕ × ℕ) (d : Fin 2) (v : ℕ) : ℕ × ℕ :=
  if d = 0 then (v, s.2) else (s.1, v)

/-- `Math.ceil(dim / numDevices)`: the per-device shard size of a dimension. -/
def shardSize (dim n : ℕ) : ℕ :=
  (⌈(dim : ℚ) / (n : ℚ)⌉).toNat

/-- The sharded deep copy built at the start of `_calculateMultiNodeMetrics`:
each configured shard dimension is replaced by its ceiling-divided size. -/
def shardMatrix (m : Matrix) (sc : ShardingConfig) : Matrix :=
  let lhs :=
    match sc.lhsShardDim with
    | none => m.lhs
    | some d => { m.lhs with shape := setDim m.lhs.shape d (shardSize (getDim m.lhs.shape d) sc.numDevices) }
  let rhs :=
    match sc.rhsShardDim with
    | none => m.rhs
    | some d => { m.rhs with shape := setDim m.rhs.shape d (shardSize (getDim m.rhs.shape d) sc.numDevices) }
  { m with lhs := lhs, rhs := rhs }

/-- The inline bytes-per-element ternary used for the collective's output bytes
in both `_calculateMultiNodeMetrics` implementations: 2 for bf16, 4 for fp32,
1 for everything else. -/
def commOutBytesPerElement (d : dtype) : ℚ :=
  if d = .bf16 then 2 else if d = .fp32 then 4 else 1

structure TPUMultiNodeMetrics where
  perDeviceMetrics : TPUNodeMetrics
  communicationCost : ℚ
  totalTime : ℚ
  speedupOverSingleDevice : ℚ
  shardingEfficiency : ℚ
deriving DecidableEq, Repr

/-- `TPUv5e._calculateMultiNodeMetrics`.  `l2f` is the `Math.log2` oracle
(see the header comment): on a power of two `n`, `Math.log2 n = Nat.log2 n`
exactly; for other arguments the value is irrational. -/
def TPUv5e.calculateMultiNodeMetrics (l2f : ℕ → ℚ) (m : Matrix) (sc : ShardingConfig) :
    TPUMultiNodeMetrics :=
  let shardedMatrix := shardMatrix m sc
  let perDeviceMetrics := calculateSingleNodeMetrics shardedMatrix
  let communicationCost :=
    if sc.lhsShardDim = some 1 ∨ sc.rhsShardDim = some 0 then
      let B := m.lhs.shape.1
      let F := m.rhs.shape.2
      let outputBytes := (B : ℚ) * (F : ℚ) * commOutBytesPerElement m.output
      let steps := l2f sc.numDevices
      outputBytes / 2 * steps / iciBidiBandwidth
    else 0
  { perDeviceMetrics
    communicationCost
    totalTime := max perDeviceMetrics.lowerBoundTime communicationCost
    speedupOverSingleDevice := (calculateSingleNodeMetrics m).lowerBoundTime /
      max perDeviceMetrics.lowerBoundTime communicationCost
    shardingEfficiency := perDeviceMetrics.lowerBoundTime /
      max perDeviceMetrics.lowerBoundTime communicationCost }

structure GPUMultiNodeMetrics where
  perDeviceMetrics : GPUNodeMetrics
  communicationCost : ℚ
  totalTime : ℚ
  speedupOverSingleDevice : ℚ
  shardingEfficiency : ℚ
  scalingEfficiency : ℚ
deriving DecidableEq, Repr

/-- `H100._calculateMultiNodeMetrics`, with the two-tier communication model.
`l2f` is the `Math.log2` oracle as in the TPU case. -/
def H100.calculateMultiNodeMetrics (l2f : ℕ → ℚ) (m : Matrix) (sc : ShardingConfig) :
    GPUMultiNodeMetrics :=
  let shardedMatrix := shardMatrix m sc
  let perDeviceMetrics := calculateSingleNodeMetrics shardedMatrix
  let communicationCost :=
    if sc.lhsShardDim = some 1 ∨ sc.rhsShardDim = some 0 then
      let B := m.lhs.shape.1
      let F := m.rhs.shape.2
      let outputBytes := (B : ℚ) * (F : ℚ) * commOutBytesPerElement m.output
      if sc.numDevices ≤ maxGpusPerNode then
        let steps := l2f sc.numDevices
        outputBytes / 2 * steps / nvlinkBandwidth
      else
        let nodesNeeded := (⌈(sc.numDevices : ℚ) / (maxGpusPerNode : ℚ)⌉).toNat
        let intraNodeSteps := l2f maxGpusPerNode
        let interNodeSteps := l2f nodesNeeded
        let intraNodeCost := outputBytes / 2 * intraNodeSteps / nvlinkBandwidth
        let interNodeCost := outputBytes / (nodesNeeded : ℚ) * interNodeSteps / pcieBandwidth
        intraNodeCost + interNodeCost
    else 0
  { perDeviceMetrics
    communicationCost
    totalTime := max perDeviceMetrics.lowerBoundTime communicationCost
    speedupOverSingleDevice := (calculateSingleNodeMetrics m).lowerBoundTime /
      max perDeviceMetrics.lowerBoundTime communicationCost
    shardingEfficiency := perDeviceMetrics.lowerBoundTime /
      max perDeviceMetrics.lowerBoundTime communicationCost
    scalingEfficiency := ((calculateSingleNodeMetrics m).lowerBoundTime /
      max perDeviceMetrics.lowerBoundTime communicationCost) / (sc.numDevices : ℚ) }

/-- `TPUv5e._generateRecommendations`: the list of pushes, in source order,
with the template already instantiated at the fixed MXU dimensions 128x128. -/
def TPUv5e.generateRecommendations (m : Matrix) (metrics : TPUNodeMetrics) : List String :=
  let r1 :=
    if metrics.isComputeBound = false then
      ["Operation is memory-bound. Consider increasing batch size to improve arithmetic intensity."]
      ++ (if m.lhs.dtype = .bf16 ∧ m.rhs.dtype = .bf16 then
            ["Consider using int8 quantization for weights to reduce memory bandwidth requirements."]
          else [])
      ++ (if metrics.vmemMetrics.fitsInVMEM = true then
            ["Consider using VMEM to store weights for higher bandwidth access."]
          else [])
    else []
  let r2 :=
    if metrics.mxuUtilization.lhsUtilization < 0.9 ∨
        metrics.mxuUtilization.rhsUtilizationRows < 0.9 ∨
        metrics.mxuUtilization.rhsUtilizationCols < 0.9 then
      ["Consider padding matrix dimensions to multiples of MXU dimensions (128x128) to improve hardware utilization."]
    else []
  let r3 :=
    if m.lhs.shape.1 < 240 ∧ m.lhs.dtype = .bf16 then
      ["For bf16 matmul on TPU, batch size should be at least 240 to be compute-bound."]
    else []
  let r := r1 ++ r2 ++ r3
  if r = [] then ["No recommendations!"] else r

/-- `H100._generateRecommendations`, with the template instantiated at the
fixed tensor-core configuration 4x4x16. -/
def H100.generateRecommendations (m : Matrix) (metrics : GPUNodeMetrics) : List String :=
  let r1 :=
    if metrics.isComputeBound = false then
      ["Operation is memory-bound. Consider increasing batch size to improve arithmetic intensity."]
      ++ (if m.lhs.dtype = .bf16 ∧ m.rhs.dtype = .bf16 then
            ["Consider using FP8 precision to reduce memory bandwidth requirements and increase compute throughput."]
          else [])
      ++ ["Consider using structured sparsity to potentially double compute throughput."]
    else []
  let r2 :=
    if metrics.tensorCoreUtilization.mUtilization < 0.9 ∨
        metrics.tensorCoreUtilization.nUtilization < 0.9 ∨
        metrics.tensorCoreUtilization.kUtilization < 0.9 then
      ["Consider padding matrix dimensions to multiples of tensor core dimensions (4x4x16) to improve hardware utilization."]
    else []
  let r3 :=
    if m.lhs.shape.1 < 300 ∧ m.lhs.dtype = .bf16 then
      ["For bf16 matmul on H100, batch size should be at least 300 to be compute-bound."]
    else []
  let r4 :=
    if ¬(m.lhs.shape.1 % 32 = 0) ∨ ¬(m.rhs.shape.2 % 32 = 0) ∨ ¬(m.lhs.shape.2 % 16 = 0) then
      ["For optimal CUDA kernel performance, consider using dimensions that are multiples of 32 for M and N, and 16 for K."]
    else []
  let r := r1 ++ r2 ++ r3 ++ r4
  if r = [] then ["No recommendations!"] else r

/-!
The roofline loop `for (let i = -1; i <= 4; i += 0.1)` is the one place in
the engine where IEEE-double rounding changes a discrete outcome, so its
index is modelled exactly.  Every index value arising in the loop is a
binary64 value of magnitude below `2 ^ 9` lying on the grid of multiples of
`2 ^ (-55)` (the start `-1` and the double nearest `0.1`, namely
`3602879701896397 / 2 ^ 55`, both do, exact sums of grid values stay on the
grid, and rounding a grid value to binary64 keeps it on the grid at these
magnitudes).  An index `i` is therefore represented by the integer
`v = i * 2 ^ 55`, and binary64 round-to-nearest-even of a grid value is:
keep the top 53 significant bits of `|v|`, rounding ties to even — exactly
IEEE for this range, which is far from overflow and subnormals. -/

/-- Number of bits of a natural number below `2 ^ 64` (fuelled so that the
kernel can evaluate it; the fuel strictly exceeds any bit length reached by
the loop, whose values stay far below `2 ^ 64`). -/
def bitlen (n : ℕ) : ℕ :=
  go 64 n
where
  go : ℕ → ℕ → ℕ
    | 0, _ => 0
    | fuel + 1, n => if n = 0 then 0 else go fuel (n / 2) + 1

/-- Round `m / 2 ^ s` to the nearest integer, ties to even (`s ≥ 1`). -/
def roundShiftEven (m s : ℕ) : ℕ :=
  let q := m / 2 ^ s
  let r := m % 2 ^ s
  let half := 2 ^ (s - 1)
  if r < half then q
  else if half < r then q + 1
  else if q % 2 = 0 then q else q + 1

/-- Binary64 round-to-nearest-even of `v / 2 ^ 55`, as a multiple of
`2 ^ (-55)`: keep the top 53 significant bits of `|v|`. -/
def fpRound55 (v : ℤ) : ℤ :=
  let m := v.natAbs
  let b := bitlen m
  if b ≤ 53 then v
  else
    let s := b - 53
    let r := roundShiftEven m s * 2 ^ s
    if v < 0 then -(r : ℤ) else (r : ℤ)

/-- The double nearest `0.1`, scaled by `2 ^ 55`. -/
def tick01 : ℤ := 3602879701896397

/-- The index values visited by `for (let i = -1; i <= 4; i += 0.1)`, scaled
by `2 ^ 55`: guard `v ≤ 4 * 2 ^ 55`, step `fpRound55 (v + tick01)` (the
binary64 sum `i + 0.1`).  The fuel bounds the unrolling only; the guard stops
the loop first. -/
def rooflineTicks : ℕ → ℤ → List ℤ
  | 0, _ => []
  | fuel + 1, v => if v ≤ 4 * 2 ^ 55 then v :: rooflineTicks fuel (fpRound55 (v + tick01)) else []

/-- The rational values of the roofline loop index, starting at `-1`. -/
def rooflineIndices : List ℚ :=
  (rooflineTicks 100 (-(2 ^ 55))).map (fun v : ℤ => (v : ℚ) / 2 ^ 55)

structure RooflinePoint where
  intensity : ℚ
  achievableFlops : ℚ
  peakFlops : ℚ
  memoryBound : Bool
deriving DecidableEq, Repr

structure MatrixPoint where
  intensity : ℚ
  achievableFlops : ℚ
  isCurrentMatrix : Bool
deriving DecidableEq, Repr

structure RooflineData where
  intensityPoints : List RooflinePoint
  matrixPoint : MatrixPoint
  peakHardwareIntensity : ℚ
  peakFlops : ℚ
deriving DecidableEq, Repr

/-- `TPUv5e._generateRooflineData`.  `pow10` is the `Math.pow(10, ·)` oracle
(see the header comment); no claim depends on its values. -/
def TPUv5e.generateRooflineData (pow10 : ℚ → ℚ) (m : Matrix) (metrics : TPUNodeMetrics) :
    RooflineData :=
  let peakFlops := if m.lhs.dtype = .int8 then flopsPerSecondINT8 else flopsPerSecondBF16
  let intensityPoints := rooflineIndices.map (fun i =>
    let intensity := pow10 i
    { intensity
      achievableFlops := min peakFlops (hbmBandwidth * intensity)
      peakFlops
      memoryBound := decide (intensity < metrics.peakHardwareIntensity) : RooflinePoint })
  let matrixPoint : MatrixPoint :=
    { intensity := metrics.arithmeticIntensity
      achievableFlops := if metrics.isComputeBound = true then peakFlops
        else hbmBandwidth * metrics.arithmeticIntensity
      isCurrentMatrix := true }
  { intensityPoints
    matrixPoint
    peakHardwareIntensity := metrics.peakHardwareIntensity
    peakFlops }

/-- `H100._generateRooflineData`, with the throughput dispatch repeated from
the single-node path. -/
def H100.generateRooflineData (pow10 : ℚ → ℚ) (m : Matrix) (metrics : GPUNodeMetrics) :
    RooflineData :=
  let flopsPerSecond := selectFlopsPerSecond m.lhs.dtype
  let intensityPoints := rooflineIndices.map (fun i =>
    let intensity := pow10 i
    { intensity
      achievableFlops := min flopsPerSecond (hbmBandwidth * intensity)
      peakFlops := flopsPerSecond
      memoryBound := decide (intensity < metrics.peakHardwareIntensity) : RooflinePoint })
  let matrixPoint : MatrixPoint :=
    { intensity := metrics.arithmeticIntensity
      achievableFlops := if metrics.isComputeBound = true then flopsPerSecond
        else hbmBandwidth * metrics.arithmeticIntensity
      isCurrentMatrix := true }
  { intensityPoints
    matrixPoint
    peakHardwareIntensity := metrics.peakHardwareIntensity
    peakFlops := flopsPerSecond }

/-- The guarded single-node computation: `_calculateSingleNodeMetrics` calls
`calculateFLOPs`, which throws for a non-matmul kind, so the entry points
propagate that error; in the matmul case the record is the pure
`calculateSingleNodeMetrics`. -/
def TPUv5e.calculateSingleNodeMetricsE (m : Matrix) :
    Except AnalyzerError TPUNodeMetrics :=
  m.calculateFLOPs.map fun _ => TPUv5e.calculateSingleNodeMetrics m

/-- Guarded single-node computation for the H100 profile. -/
def H100.calculateSingleNodeMetricsE (m : Matrix) :
    Except AnalyzerError GPUNodeMetrics :=
  m.calculateFLOPs.map fun _ => H100.calculateSingleNodeMetrics m

/-- The `Metrics` record returned by `TPUv5e.performanceMetrics`. -/
structure TPUMetrics where
  singleNode : TPUNodeMetrics
  multiNode : Option TPUMultiNodeMetrics
deriving DecidableEq, Repr

/-- The `Metrics` record returned by `H100.performanceMetrics`. -/
structure GPUMetrics where
  singleNode : GPUNodeMetrics
  multiNode : Option GPUMultiNodeMetrics
deriving DecidableEq, Repr

/-- `TPUv5e.performanceMetrics(Id, mN, sC)` over the registry `matrices`:
unknown identifier throws first; a multi-node request without a configuration
throws next; multi-node metrics are attached only when both `mN` and a
configuration are present.  An error returns no partial results. -/
def TPUv5e.performanceMetrics (l2f : ℕ → ℚ) (matrices : List Matrix) (Id : String)
    (mN : Bool) (sC : Option ShardingConfig) : Except AnalyzerError TPUMetrics :=
  match matrices.find? (fun mx => mx.id = Id) with
  | none => .error .notFound
  | some matrix =>
    if mN = true ∧ sC = none then .error .missingConfiguration
    else do
      let s ← calculateSingleNodeMetricsE matrix
      let mnm := match mN, sC with
        | true, some c => some (calculateMultiNodeMetrics l2f matrix c)
        | _, _ => none
      pure { singleNode := s, multiNode := mnm }

/-- `H100.performanceMetrics`, same shape as the TPU entry point. -/
def H100.performanceMetrics (l2f : ℕ → ℚ) (matrices : List Matrix) (Id : String)
    (mN : Bool) (sC : Option ShardingConfig) : Except AnalyzerError GPUMetrics :=
  match matrices.find? (fun mx => mx.id = Id) with
  | none => .error .notFound
  | some matrix =>
    if mN = true ∧ sC = none then .error .missingConfiguration
    else do
      let s ← calculateSingleNodeMetricsE matrix
      let mnm := match mN, sC with
        | true, some c => some (calculateMultiNodeMetrics l2f matrix c)
        | _, _ => none
      pure { singleNode := s, multiNode := mnm }

/-- `TPUv5e.analyze(matrixId)`: metrics, recommendations and roofline data;
an unknown identifier throws `NotFound`. -/
def TPUv5e.analyze (pow10 : ℚ → ℚ) (matrices : List Matrix) (matrixId : String) :
    Except AnalyzerError (TPUNodeMetrics × List String × RooflineData) :=
  match matrices.find? (fun mx => mx.id = matrixId) with
  | none => .error .notFound
  | some matrix =>
    (calculateSingleNodeMetricsE matrix).map fun met =>
      (met, generateRecommendations matrix met, generateRooflineData pow10 matrix met)

/-- `H100.analyze(matrixId)`. -/
def H100.analyze (pow10 : ℚ → ℚ) (matrices : List Matrix) (matrixId : String) :
    Except AnalyzerError (GPUNodeMetrics × List String × RooflineData) :=
  match matrices.find? (fun mx => mx.id = matrixId) with
  | none => .error .notFound
  | some matrix =>
    (calculateSingleNodeMetricsE matrix).map fun met =>
      (met, generateRecommendations matrix met, generateRooflineData pow10 matrix met)

/-- The exact value of `Math.log2` on powers of two, used to instantiate the
`l2f` oracle in witnesses: `Math.log2 (2 ^ k) = k = Nat.log2 (2 ^ k)`. -/
def mlog2 (n : ℕ) : ℚ := (Nat.log2 n : ℚ)

/-! Component equations: each metric field, unfolded to its defining
expression. -/

@[simp] theorem calculateBytes_LHSBytes (m : Matrix) :
    m.calculateBytes.LHSBytes = (m.lhs.shape.1 : ℚ) * (m.lhs.shape.2 : ℚ) * bytesPerElement m.lhs.dtype := rfl

@[simp] theorem calculateBytes_RHSBytes (m : Matrix) :
    m.calculateBytes.RHSBytes = (m.rhs.shape.1 : ℚ) * (m.rhs.shape.2 : ℚ) * bytesPerElement m.rhs.dtype := rfl

@[simp] theorem calculateBytes_outputBytes (m : Matrix) :
    m.calculateBytes.outputBytes = (m.lhs.shape.1 : ℚ) * (m.rhs.shape.2 : ℚ) * bytesPerElement m.output := rfl

theorem calculateBytes_totalBytes (m : Matrix) :
    m.calculateBytes.totalBytes =
      m.calculateBytes.LHSBytes + m.calculateBytes.RHSBytes + m.calculateBytes.outputBytes := rfl

namespace TPUv5e

theorem single_totalFLOPs (m : Matrix) :
    (calculateSingleNodeMetrics m).totalFLOPs = m.flopsValue := rfl

theorem single_bytes (m : Matrix) :
    (calculateSingleNodeMetrics m).bytes = m.calculateBytes := rfl

theorem single_arithmeticIntensity (m : Matrix) :
    (calculateSingleNodeMetrics m).arithmeticIntensity = m.intensityValue := rfl

theorem single_computeTime (m : Matrix) :
    (calculateSingleNodeMetrics m).computeTime =
      m.flopsValue / (if m.lhs.dtype = .int8 then flopsPerSecondINT8 else flopsPerSecondBF16) := rfl

theorem single_memoryTime (m : Matrix) :
    (calculateSingleNodeMetrics m).memoryTime = m.calculateBytes.totalBytes / hbmBandwidth := rfl

theorem single_lowerBoundTime (m : Matrix) :
    (calculateSingleNodeMetrics m).lowerBoundTime =
      max (calculateSingleNodeMetrics m).computeTime (calculateSingleNodeMetrics m).memoryTime := rfl

theorem single_upperBoundTime (m : Matrix) :
    (calculateSingleNodeMetrics m).upperBoundTime =
      (calculateSingleNodeMetrics m).computeTime + (calculateSingleNodeMetrics m).memoryTime := rfl

theorem single_lhsUtilization (m : Matrix) :
    (calculateSingleNodeMetrics m).mxuUtilization.lhsUtilization = tileUtil m.lhs.shape.1 mxuDim0 := rfl

theorem single_rhsUtilizationRows (m : Matrix) :
    (calculateSingleNodeMetrics m).mxuUtilization.rhsUtilizationRows = tileUtil m.lhs.shape.2 mxuDim0 := rfl

theorem single_rhsUtilizationCols (m : Matrix) :
    (calculateSingleNodeMetrics m).mxuUtilization.rhsUtilizationCols = tileUtil m.rhs.shape.2 mxuDim1 := rfl

theorem single_fitsInVMEM (m : Matrix) :
    (calculateSingleNodeMetrics m).vmemMetrics.fitsInVMEM =
      decide (m.calculateBytes.LHSBytes + m.calculateBytes.RHSBytes ≤ vmemCapacity) := rfl

theorem single_vmemComputeTime (m : Matrix) :
    (calculateSingleNodeMetrics m).vmemMetrics.vmemComputeTime =
      (calculateSingleNodeMetrics m).computeTime := rfl

theorem single_vmemMemoryTime (m : Matrix) :
    (calculateSingleNodeMetrics m).vmemMetrics.vmemMemoryTime =
      m.calculateBytes.totalBytes / vmemBandwidth := rfl

theorem single_vmemSpeedup (m : Matrix) :
    (calculateSingleNodeMetrics m).vmemMetrics.vmemSpeedup =
      (calculateSingleNodeMetrics m).memoryTime / (calculateSingleNodeMetrics m).vmemMetrics.vmemMemoryTime := rfl

theorem multi_perDeviceMetrics (l2f : ℕ → ℚ) (m : Matrix) (sc : ShardingConfig) :
    (calculateMultiNodeMetrics l2f m sc).perDeviceMetrics =
      calculateSingleNodeMetrics (shardMatrix m sc) := rfl

theorem multi_communicationCost (l2f : ℕ → ℚ) (m : Matrix) (sc : ShardingConfig) :
    (calculateMultiNodeMetrics l2f m sc).communicationCost =
      if sc.lhsShardDim = some 1 ∨ sc.rhsShardDim = some 0 then
        (m.lhs.shape.1 : ℚ) * (m.rhs.shape.2 : ℚ) * commOutBytesPerElement m.output / 2 *
          l2f sc.numDevices / iciBidiBandwidth
      else 0 := rfl

theorem multi_shardingEfficiency (l2f : ℕ → ℚ) (m : Matrix) (sc : ShardingConfig) :
    (calculateMultiNodeMetrics l2f m sc).shardingEfficiency =
      (calculateMultiNodeMetrics l2f m sc).perDeviceMetrics.lowerBoundTime /
        max (calculateMultiNodeMetrics l2f m sc).perDeviceMetrics.lowerBoundTime
          (calculateMultiNodeMetrics l2f m sc).communicationCost := rfl

theorem multi_speedupOverSingleDevice (l2f : ℕ → ℚ) (m : Matrix) (sc : ShardingConfig) :
    (calculateMultiNodeMetrics l2f m sc).speedupOverSingleDevice =
      (calculateSingleNodeMetrics m).lowerBoundTime /
        max (calculateMultiNodeMetrics l2f m sc).perDeviceMetrics.lowerBoundTime
          (calculateMultiNodeMetrics l2f m sc).communicationCost := rfl

end TPUv5e

namespace H100

theorem gsingle_computeTime (m : Matrix) :
    (calculateSingleNodeMetrics m).computeTime =
      m.flopsValue / selectFlopsPerSecond m.lhs.dtype := rfl

theorem gsingle_memoryTime (m : Matrix) :
    (calculateSingleNodeMetrics m).memoryTime = m.calculateBytes.totalBytes / hbmBandwidth := rfl

theorem single_canFitWeightsInL2 (m : Matrix) :
    (calculateSingleNodeMetrics m).canFitWeightsInL2 =
      decide (m.calculateBytes.RHSBytes ≤ l2CacheSize) := rfl

theorem single_l2CacheBenefit (m : Matrix) :
    (calculateSingleNodeMetrics m).l2CacheBenefit =
      if (calculateSingleNodeMetrics m).canFitWeightsInL2 = true then 1.5 else 1.0 := rfl

theorem single_effectiveMemoryTime (m : Matrix) :
    (calculateSingleNodeMetrics m).effectiveMemoryTime =
      (calculateSingleNodeMetrics m).memoryTime / (calculateSingleNodeMetrics m).l2CacheBenefit := rfl

theorem gsingle_lowerBoundTime (m : Matrix) :
    (calculateSingleNodeMetrics m).lowerBoundTime =
      max (calculateSingleNodeMetrics m).computeTime
        (calculateSingleNodeMetrics m).effectiveMemoryTime := rfl

theorem gsingle_upperBoundTime (m : Matrix) :
    (calculateSingleNodeMetrics m).upperBoundTime =
      (calculateSingleNodeMetrics m).computeTime +
        (calculateSingleNodeMetrics m).effectiveMemoryTime := rfl

theorem single_mUtilization (m : Matrix) :
    (calculateSingleNodeMetrics m).tensorCoreUtilization.mUtilization = tileUtil m.lhs.shape.1 tcM := rfl

theorem single_nUtilization (m : Matrix) :
    (calculateSingleNodeMetrics m).tensorCoreUtilization.nUtilization = tileUtil m.rhs.shape.2 tcN := rfl

theorem single_kUtilization (m : Matrix) :
    (calculateSingleNodeMetrics m).tensorCoreUtilization.kUtilization = tileUtil m.lhs.shape.2 tcK := rfl

theorem gmulti_perDeviceMetrics (l2f : ℕ → ℚ) (m : Matrix) (sc : ShardingConfig) :
    (calculateMultiNodeMetrics l2f m sc).perDeviceMetrics =
      calculateSingleNodeMetrics (shardMatrix m sc) := rfl

theorem gmulti_communicationCost (l2f : ℕ → ℚ) (m : Matrix) (sc : ShardingConfig) :
    (calculateMultiNodeMetrics l2f m sc).communicationCost =
      if sc.lhsShardDim = some 1 ∨ sc.rhsShardDim = some 0 then
        if sc.numDevices ≤ maxGpusPerNode then
          (m.lhs.shape.1 : ℚ) * (m.rhs.shape.2 : ℚ) * commOutBytesPerElement m.output / 2 *
            l2f sc.numDevices / nvlinkBandwidth
        else
          (m.lhs.shape.1 : ℚ) * (m.rhs.shape.2 : ℚ) * commOutBytesPerElement m.output / 2 *
            l2f maxGpusPerNode / nvlinkBandwidth +
          (m.lhs.shape.1 : ℚ) * (m.rhs.shape.2 : ℚ) * commOutBytesPerElement m.output /
            ((⌈(sc.numDevices : ℚ) / (maxGpusPerNode : ℚ)⌉).toNat : ℚ) *
            l2f (⌈(sc.numDevices : ℚ) / (maxGpusPerNode : ℚ)⌉).toNat / pcieBandwidth
      else 0 := rfl

theorem gmulti_shardingEfficiency (l2f : ℕ → ℚ) (m : Matrix) (sc : ShardingConfig) :
    (calculateMultiNodeMetrics l2f m sc).shardingEfficiency =
      (calculateMultiNodeMetrics l2f m sc).perDeviceMetrics.lowerBoundTime /
        max (calculateMultiNodeMetrics l2f m sc).perDeviceMetrics.lowerBoundTime
          (calculateMultiNodeMetrics l2f m sc).communicationCost := rfl

theorem gmulti_speedupOverSingleDevice (l2f : ℕ → ℚ) (m : Matrix) (sc : ShardingConfig) :
    (calculateMultiNodeMetrics l2f m sc).speedupOverSingleDevice =
      (calculateSingleNodeMetrics m).lowerBoundTime /
        max (calculateMultiNodeMetrics l2f m sc).perDeviceMetrics.lowerBoundTime
          (calculateMultiNodeMetrics l2f m sc).communicationCost := rfl

end H100

/-! Basic sign facts. -/

theorem bytesPerElement_pos (d : dtype) : 0 < bytesPerElement d := by
  cases d <;> norm_num [bytesPerElement]

theorem LHSBytes_nonneg (m : Matrix) : 0 ≤ m.calculateBytes.LHSBytes := by
  rw [calculateBytes_LHSBytes]
  exact mul_nonneg (mul_nonneg (Nat.cast_nonneg _) (Nat.cast_nonneg _)) (bytesPerElement_pos _).le

theorem RHSBytes_nonneg (m : Matrix) : 0 ≤ m.calculateBytes.RHSBytes := by
  rw [calculateBytes_RHSBytes]
  exact mul_nonneg (mul_nonneg (Nat.cast_nonneg _) (Nat.cast_nonneg _)) (bytesPerElement_pos _).le

theorem outputBytes_nonneg (m : Matrix) : 0 ≤ m.calculateBytes.outputBytes := by
  rw [calculateBytes_outputBytes]
  exact mul_nonneg (mul_nonneg (Nat.cast_nonneg _) (Nat.cast_nonneg _)) (bytesPerElement_pos _).le

theorem totalBytes_nonneg (m : Matrix) : 0 ≤ m.calculateBytes.totalBytes := by
  rw [calculateBytes_totalBytes]
  have h1 := LHSBytes_nonneg m
  have h2 := RHSBytes_nonneg m
  have h3 := outputBytes_nonneg m
  linarith

theorem flopsValue_nonneg (m : Matrix) : 0 ≤ m.flopsValue := by
  rw [Matrix.flopsValue]
  positivity

theorem tpu_selectFlops_pos (m : Matrix) :
    0 < (if m.lhs.dtype = dtype.int8 then TPUv5e.flopsPerSecondINT8 else TPUv5e.flopsPerSecondBF16) := by
  split <;> norm_num [TPUv5e.flopsPerSecondINT8, TPUv5e.flopsPerSecondBF16]

theorem gpu_selectFlops_pos (d : dtype) : 0 < H100.selectFlopsPerSecond d := by
  cases d <;> norm_num [H100.selectFlopsPerSecond, H100.flopsPerSecondBF16,
    H100.flopsPerSecondFP32, H100.flopsPerSecondINT8, H100.flopsPerSecondFP8]

theorem tpu_computeTime_nonneg (m : Matrix) : 0 ≤ (TPUv5e.calculateSingleNodeMetrics m).computeTime := by
  rw [TPUv5e.single_computeTime]
  exact div_nonneg (flopsValue_nonneg m) (tpu_selectFlops_pos m).le

theorem tpu_memoryTime_nonneg (m : Matrix) : 0 ≤ (TPUv5e.calculateSingleNodeMetrics m).memoryTime := by
  rw [TPUv5e.single_memoryTime]
  exact div_nonneg (totalBytes_nonneg m) (by norm_num [TPUv5e.hbmBandwidth])

theorem gpu_computeTime_nonneg (m : Matrix) : 0 ≤ (H100.calculateSingleNodeMetrics m).computeTime := by
  rw [H100.gsingle_computeTime]
  exact div_nonneg (flopsValue_nonneg m) (gpu_selectFlops_pos m.lhs.dtype).le

theorem gpu_l2CacheBenefit_pos (m : Matrix) : 0 < (H100.calculateSingleNodeMetrics m).l2CacheBenefit := by
  rw [H100.single_l2CacheBenefit]
  split <;> norm_num

theorem gpu_memoryTime_nonneg (m : Matrix) : 0 ≤ (H100.calculateSingleNodeMetrics m).memoryTime := by
  rw [H100.gsingle_memoryTime]
  exact div_nonneg (totalBytes_nonneg m) (by norm_num [H100.hbmBandwidth])

theorem gpu_effectiveMemoryTime_nonneg (m : Matrix) :
    0 ≤ (H100.calculateSingleNodeMetrics m).effectiveMemoryTime := by
  rw [H100.single_effectiveMemoryTime]
  exact div_nonneg (gpu_memoryTime_nonneg m) (gpu_l2CacheBenefit_pos m).le

/-- For nonnegative `a b`, `max a b` is below `a + b`, with equality exactly
when one vanishes. -/
theorem max_eq_add_iff_of_nonneg {a b : ℚ} (ha : 0 ≤ a) (hb : 0 ≤ b) :
    max a b ≤ a + b ∧ (max a b = a + b ↔ a = 0 ∨ b = 0) := by
  refine ⟨max_le (le_add_of_nonneg_right hb) (le_add_of_nonneg_left ha), ?_, ?_⟩
  · intro h
    rcases le_total a b with hab | hab
    · rw [max_eq_right hab] at h
      left; linarith
    · rw [max_eq_left hab] at h
      right; linarith
  · rintro (rfl | rfl)
    · rw [max_eq_right hb]; ring
    · rw [max_eq_left ha]; ring

/-! Example operations used by witnesses. -/

/-- A small registered matmul: `(2, 3) x (3, 4)`, bf16 everywhere. -/
def mEx : Matrix :=
  { id := "a", type := "matmul"
    lhs := { shape := (2, 3), dtype := .bf16 }
    rhs := { shape := (3, 4), dtype := .bf16 }
    output := .bf16 }

/-- The same operation with a non-matmul kind string. -/
def mBadEx : Matrix := { mEx with type := "conv" }

/-! Claim theorems. -/

/-- C1: for a registered operation of kind matmul with left shape `(B, D)` and
right shape `(D, F)`, `calculateFLOPs()` returns exactly `2*B*D*F`; for an
operation whose kind is not matmul it fails with the UnsupportedOperation
error and returns no value. -/
theorem C1_calculateFLOPs (m : Matrix) :
    (m.type = "matmul" →
      m.calculateFLOPs =
        .ok (2 * (m.lhs.shape.1 : ℚ) * (m.lhs.shape.2 : ℚ) * (m.rhs.shape.2 : ℚ))) ∧
    (m.type ≠ "matmul" → m.calculateFLOPs = .error .unsupportedOperation) := by
  constructor
  · intro h
    simp [Matrix.calculateFLOPs, h, Matrix.flopsValue]
  · intro h
    simp [Matrix.calculateFLOPs, h]

/-- Witness for C1 at the concrete operations `mEx` and `mBadEx`. -/
theorem C1_calculateFLOPs_witness :
    mEx.calculateFLOPs =
      .ok (2 * ((2 : ℕ) : ℚ) * ((3 : ℕ) : ℚ) * ((4 : ℕ) : ℚ)) ∧
    mBadEx.calculateFLOPs = .error .unsupportedOperation :=
  ⟨(C1_calculateFLOPs mEx).1 rfl, (C1_calculateFLOPs mBadEx).2 (by simp [mBadEx, mEx])⟩

/-- C2: on both profiles `lowerBoundTime = max(computeTime, effectiveMemoryTime)`
and `upperBoundTime = computeTime + effectiveMemoryTime` (for the TPU profile
the effective memory time is `memoryTime` itself), hence
`lowerBoundTime ≤ upperBoundTime`, with equality exactly when the compute time
or the effective memory time is zero. -/
theorem C2_timeBounds (m : Matrix) :
    ((TPUv5e.calculateSingleNodeMetrics m).lowerBoundTime =
        max (TPUv5e.calculateSingleNodeMetrics m).computeTime
          (TPUv5e.calculateSingleNodeMetrics m).memoryTime) ∧
    ((TPUv5e.calculateSingleNodeMetrics m).upperBoundTime =
        (TPUv5e.calculateSingleNodeMetrics m).computeTime +
          (TPUv5e.calculateSingleNodeMetrics m).memoryTime) ∧
    ((TPUv5e.calculateSingleNodeMetrics m).lowerBoundTime ≤
        (TPUv5e.calculateSingleNodeMetrics m).upperBoundTime) ∧
    ((TPUv5e.calculateSingleNodeMetrics m).lowerBoundTime =
        (TPUv5e.calculateSingleNodeMetrics m).upperBoundTime ↔
      (TPUv5e.calculateSingleNodeMetrics m).computeTime = 0 ∨
        (TPUv5e.calculateSingleNodeMetrics m).memoryTime = 0) ∧
    ((H100.calculateSingleNodeMetrics m).lowerBoundTime =
        max (H100.calculateSingleNodeMetrics m).computeTime
          (H100.calculateSingleNodeMetrics m).effectiveMemoryTime) ∧
    ((H100.calculateSingleNodeMetrics m).upperBoundTime =
        (H100.calculateSingleNodeMetrics m).computeTime +
          (H100.calculateSingleNodeMetrics m).effectiveMemoryTime) ∧
    ((H100.calculateSingleNodeMetrics m).lowerBoundTime ≤
        (H100.calculateSingleNodeMetrics m).upperBoundTime) ∧
    ((H100.calculateSingleNodeMetrics m).lowerBoundTime =
        (H100.calculateSingleNodeMetrics m).upperBoundTime ↔
      (H100.calculateSingleNodeMetrics m).computeTime = 0 ∨
        (H100.calculateSingleNodeMetrics m).effectiveMemoryTime = 0) := by
  have ht :=
    max_eq_add_iff_of_nonneg (tpu_computeTime_nonneg m) (tpu_memoryTime_nonneg m)
  have hg :=
    max_eq_add_iff_of_nonneg (gpu_computeTime_nonneg m) (gpu_effectiveMemoryTime_nonneg m)
  refine ⟨TPUv5e.single_lowerBoundTime m, TPUv5e.single_upperBoundTime m, ?_, ?_,
    H100.gsingle_lowerBoundTime m, H100.gsingle_upperBoundTime m, ?_, ?_⟩
  · rw [TPUv5e.single_lowerBoundTime, TPUv5e.single_upperBoundTime]
    exact ht.1
  · rw [TPUv5e.single_lowerBoundTime, TPUv5e.single_upperBoundTime]
    exact ht.2
  · rw [H100.gsingle_lowerBoundTime, H100.gsingle_upperBoundTime]
    exact hg.1
  · rw [H100.gsingle_lowerBoundTime, H100.gsingle_upperBoundTime]
    exact hg.2

/-- The TPU padding recommendation string, as emitted with the fixed MXU
dimensions. -/
def tpuPaddingMsg : String :=
  "Consider padding matrix dimensions to multiples of MXU dimensions (128x128) to improve hardware utilization."

/-- A matmul whose batch dimension is 100, for the C4 scenario. -/
def m100 : Matrix :=
  { id := "b", type := "matmul"
    lhs := { shape := (100, 256), dtype := .bf16 }
    rhs := { shape := (256, 256), dtype := .bf16 }
    output := .bf16 }

/-- C4: every tiling-utilization fraction is `tileUtil` of its dimension and
unit; `tileUtil` is `1.0` on exact multiples and otherwise
`dim / (ceil(dim/unit) * unit)`; and with `B = 100` on the TPU profile the
lhs utilization is `100/128 = 0.78125`, which is below `0.9`, so the
recommendations include the padding-to-MXU-multiples message. -/
theorem C4_tilingUtilization (dim unit : ℕ) (m : Matrix) :
    ((TPUv5e.calculateSingleNodeMetrics m).mxuUtilization.lhsUtilization = tileUtil m.lhs.shape.1 128 ∧
      (TPUv5e.calculateSingleNodeMetrics m).mxuUtilization.rhsUtilizationRows = tileUtil m.lhs.shape.2 128 ∧
      (TPUv5e.calculateSingleNodeMetrics m).mxuUtilization.rhsUtilizationCols = tileUtil m.rhs.shape.2 128 ∧
      (H100.calculateSingleNodeMetrics m).tensorCoreUtilization.mUtilization = tileUtil m.lhs.shape.1 4 ∧
      (H100.calculateSingleNodeMetrics m).tensorCoreUtilization.nUtilization = tileUtil m.rhs.shape.2 4 ∧
      (H100.calculateSingleNodeMetrics m).tensorCoreUtilization.kUtilization = tileUtil m.lhs.shape.2 16) ∧
    (dim % unit = 0 → tileUtil dim unit = 1) ∧
    (dim % unit ≠ 0 →
      tileUtil dim unit = (dim : ℚ) / ((⌈(dim : ℚ) / (unit : ℚ)⌉ : ℚ) * (unit : ℚ))) ∧
    (m.lhs.shape.1 = 100 →
      (TPUv5e.calculateSingleNodeMetrics m).mxuUtilization.lhsUtilization = 100 / 128 ∧
      (100 / 128 : ℚ) = 0.78125 ∧
      tpuPaddingMsg ∈ TPUv5e.generateRecommendations m (TPUv5e.calculateSingleNodeMetrics m)) := by
  refine ⟨⟨TPUv5e.single_lhsUtilization m, TPUv5e.single_rhsUtilizationRows m,
    TPUv5e.single_rhsUtilizationCols m, H100.single_mUtilization m,
    H100.single_nUtilization m, H100.single_kUtilization m⟩, ?_, ?_, ?_⟩
  · intro h
    rw [tileUtil, if_pos h]
  · intro h
    rw [tileUtil, if_neg h, div_div]
  · intro hB
    have hlhs : (TPUv5e.calculateSingleNodeMetrics m).mxuUtilization.lhsUtilization = 100 / 128 := by
      rw [TPUv5e.single_lhsUtilization, hB]
      rw [tileUtil, if_neg (by norm_num [TPUv5e.mxuDim0])]
      have hc : ⌈(25 : ℚ) / 32⌉ = 1 := by
        norm_num [Int.ceil_eq_iff]
      norm_num [TPUv5e.mxuDim0]
      rw [hc]
      norm_num
    refine ⟨hlhs, by norm_num, ?_⟩
    have hu : (TPUv5e.calculateSingleNodeMetrics m).mxuUtilization.lhsUtilization < 0.9 := by
      rw [hlhs]; norm_num
    simp only [TPUv5e.generateRecommendations]
    rw [if_pos (Or.inl hu)]
    rw [if_neg (by simp [tpuPaddingMsg])]
    simp [tpuPaddingMsg]

/-- Witness for C4 at `dim = 100`, `unit = 128` and the concrete `m100`. -/
theorem C4_tilingUtilization_witness :
    tileUtil 256 128 = 1 ∧
    tileUtil 100 128 = (100 : ℚ) / ((⌈(100 : ℚ) / (128 : ℚ)⌉ : ℚ) * (128 : ℚ)) ∧
    ((TPUv5e.calculateSingleNodeMetrics m100).mxuUtilization.lhsUtilization = 100 / 128 ∧
      (100 / 128 : ℚ) = 0.78125 ∧
      tpuPaddingMsg ∈ TPUv5e.generateRecommendations m100 (TPUv5e.calculateSingleNodeMetrics m100)) :=
  ⟨(C4_tilingUtilization 256 128 m100).2.1 (by norm_num),
   (C4_tilingUtilization 100 128 m100).2.2.1 (by norm_num),
   (C4_tilingUtilization 100 128 m100).2.2.2 rfl⟩

/-- C5: the fast-memory fit check is asymmetric: the TPU profile fits iff
left plus right operand bytes (output excluded) are at most the VMEM
capacity, reports the memory time recomputed with the VMEM bandwidth (the
compute time is unchanged) and a speedup `memoryTime / vmemMemoryTime`; the
GPU profile fits iff the right operand's bytes alone are at most the L2
cache size, and when it fits divides the memory time by the fixed 1.5
benefit multiplier. -/
theorem C5_fastMemoryAsymmetry (m : Matrix) :
    ((TPUv5e.calculateSingleNodeMetrics m).vmemMetrics.fitsInVMEM = true ↔
      m.calculateBytes.LHSBytes + m.calculateBytes.RHSBytes ≤ TPUv5e.vmemCapacity) ∧
    ((TPUv5e.calculateSingleNodeMetrics m).vmemMetrics.vmemComputeTime =
      (TPUv5e.calculateSingleNodeMetrics m).computeTime) ∧
    ((TPUv5e.calculateSingleNodeMetrics m).vmemMetrics.vmemMemoryTime =
      m.calculateBytes.totalBytes / TPUv5e.vmemBandwidth) ∧
    ((TPUv5e.calculateSingleNodeMetrics m).vmemMetrics.vmemSpeedup =
      (TPUv5e.calculateSingleNodeMetrics m).memoryTime /
        (TPUv5e.calculateSingleNodeMetrics m).vmemMetrics.vmemMemoryTime) ∧
    ((H100.calculateSingleNodeMetrics m).canFitWeightsInL2 = true ↔
      m.calculateBytes.RHSBytes ≤ H100.l2CacheSize) ∧
    ((H100.calculateSingleNodeMetrics m).canFitWeightsInL2 = true →
      (H100.calculateSingleNodeMetrics m).effectiveMemoryTime =
        (H100.calculateSingleNodeMetrics m).memoryTime / 1.5) := by
  refine ⟨?_, TPUv5e.single_vmemComputeTime m, TPUv5e.single_vmemMemoryTime m,
    TPUv5e.single_vmemSpeedup m, ?_, ?_⟩
  · rw [TPUv5e.single_fitsInVMEM]
    exact decide_eq_true_iff
  · rw [H100.single_canFitWeightsInL2]
    exact decide_eq_true_iff
  · intro h
    rw [H100.single_effectiveMemoryTime, H100.single_l2CacheBenefit, if_pos h]

/-- Witness for C5 at the concrete `mEx`, whose operands fit both fast
memories. -/
theorem C5_fastMemoryAsymmetry_witness :
    (TPUv5e.calculateSingleNodeMetrics mEx).vmemMetrics.fitsInVMEM = true ∧
    (H100.calculateSingleNodeMetrics mEx).effectiveMemoryTime =
      (H100.calculateSingleNodeMetrics mEx).memoryTime / 1.5 :=
  ⟨(C5_fastMemoryAsymmetry mEx).1.mpr
      (by norm_num [mEx, bytesPerElement, TPUv5e.vmemCapacity]),
   (C5_fastMemoryAsymmetry mEx).2.2.2.2.2
      ((C5_fastMemoryAsymmetry mEx).2.2.2.2.1.mpr
        (by norm_num [mEx, bytesPerElement, H100.l2CacheSize]))⟩

/-- C9: for every operation with positive total byte footprint, the TPU
`vmemSpeedup` is the constant bandwidth ratio `vmemBandwidth / hbmBandwidth`
(`1.78e13 / 8.1e11`), independent of shapes, element types and the fit
check, because `memoryTime` and `vmemMemoryTime` divide the same
`totalBytes` by their respective bandwidths. -/
theorem C9_vmemSpeedupConstant (m : Matrix) (h : 0 < m.calculateBytes.totalBytes) :
    (TPUv5e.calculateSingleNodeMetrics m).vmemMetrics.vmemSpeedup =
      TPUv5e.vmemBandwidth / TPUv5e.hbmBandwidth ∧
    TPUv5e.vmemBandwidth / TPUv5e.hbmBandwidth = 1.78e13 / 8.1e11 := by
  constructor
  · rw [TPUv5e.single_vmemSpeedup, TPUv5e.single_memoryTime, TPUv5e.single_vmemMemoryTime]
    have htB : m.calculateBytes.totalBytes ≠ 0 := ne_of_gt h
    have hh : TPUv5e.hbmBandwidth ≠ 0 := by norm_num [TPUv5e.hbmBandwidth]
    have hv : TPUv5e.vmemBandwidth ≠ 0 := by norm_num [TPUv5e.vmemBandwidth]
    field_simp
    ring
  · norm_num [TPUv5e.vmemBandwidth, TPUv5e.hbmBandwidth]

/-- Witness for C9 at the concrete `mEx`. -/
theorem C9_vmemSpeedupConstant_witness :
    0 < mEx.calculateBytes.totalBytes ∧
    (TPUv5e.calculateSingleNodeMetrics mEx).vmemMetrics.vmemSpeedup =
      TPUv5e.vmemBandwidth / TPUv5e.hbmBandwidth :=
  ⟨by norm_num [mEx, calculateBytes_totalBytes, bytesPerElement],
   (C9_vmemSpeedupConstant mEx
      (by norm_num [mEx, calculateBytes_totalBytes, bytesPerElement])).1⟩

/-- C3: the communication cost is zero unless the sharding configuration
shards the left operand's column axis or the right operand's row axis; under
that condition it is `(outputBytes / 2) * log2(numDevices) / bandwidth` over
the single TPU interconnect, and over the NVLink fabric on the GPU profile
when `numDevices` is within one NVSwitch domain — with the output bytes
taken from the unsharded shapes. -/
theorem C3_communicationCost (l2f : ℕ → ℚ) (m : Matrix) (sc : ShardingConfig) :
    (¬(sc.lhsShardDim = some 1 ∨ sc.rhsShardDim = some 0) →
      (TPUv5e.calculateMultiNodeMetrics l2f m sc).communicationCost = 0 ∧
      (H100.calculateMultiNodeMetrics l2f m sc).communicationCost = 0) ∧
    (sc.lhsShardDim = some 1 ∨ sc.rhsShardDim = some 0 →
      (TPUv5e.calculateMultiNodeMetrics l2f m sc).communicationCost =
        (m.lhs.shape.1 : ℚ) * (m.rhs.shape.2 : ℚ) * commOutBytesPerElement m.output / 2 *
          l2f sc.numDevices / TPUv5e.iciBidiBandwidth ∧
      (sc.numDevices ≤ H100.maxGpusPerNode →
        (H100.calculateMultiNodeMetrics l2f m sc).communicationCost =
          (m.lhs.shape.1 : ℚ) * (m.rhs.shape.2 : ℚ) * commOutBytesPerElement m.output / 2 *
            l2f sc.numDevices / H100.nvlinkBandwidth)) := by
  constructor
  · intro h
    rw [TPUv5e.multi_communicationCost, H100.gmulti_communicationCost, if_neg h, if_neg h]
    exact ⟨rfl, rfl⟩
  · intro h
    refine ⟨?_, ?_⟩
    · rw [TPUv5e.multi_communicationCost, if_pos h]
    · intro hn
      rw [H100.gmulti_communicationCost, if_pos h, if_pos hn]

/-- Witness for C3: a non-reduction sharding has zero cost, a reduction
sharding over 4 devices pays the collective formula on both profiles. -/
theorem C3_communicationCost_witness :
    (TPUv5e.calculateMultiNodeMetrics mlog2 mEx ⟨4, some 0, none⟩).communicationCost = 0 ∧
    (TPUv5e.calculateMultiNodeMetrics mlog2 mEx ⟨4, some 1, none⟩).communicationCost =
      (mEx.lhs.shape.1 : ℚ) * (mEx.rhs.shape.2 : ℚ) * commOutBytesPerElement mEx.output / 2 *
        mlog2 4 / TPUv5e.iciBidiBandwidth ∧
    (H100.calculateMultiNodeMetrics mlog2 mEx ⟨4, some 1, none⟩).communicationCost =
      (mEx.lhs.shape.1 : ℚ) * (mEx.rhs.shape.2 : ℚ) * commOutBytesPerElement mEx.output / 2 *
        mlog2 4 / H100.nvlinkBandwidth :=
  ⟨((C3_communicationCost mlog2 mEx ⟨4, some 0, none⟩).1 (by simp)).1,
   ((C3_communicationCost mlog2 mEx ⟨4, some 1, none⟩).2 (Or.inl rfl)).1,
   ((C3_communicationCost mlog2 mEx ⟨4, some 1, none⟩).2 (Or.inl rfl)).2
     (by norm_num [H100.maxGpusPerNode])⟩

/-- An operation with an int4 output, for the C10 width-table discrepancy. -/
def mInt4 : Matrix := { mEx with output := .int4 }

/-- C10: the collective's inline width table charges 2 bytes for bf16, 4 for
fp32 and 1 for every other output type, so an int4 output is charged
`B * F * 1` bytes in the communication cost — twice the `0.5`
bytes-per-element that `calculateBytes` assigns to int4. -/
theorem C10_commWidthTable (l2f : ℕ → ℚ) (m : Matrix) (sc : ShardingConfig) :
    commOutBytesPerElement .bf16 = 2 ∧
    commOutBytesPerElement .fp32 = 4 ∧
    commOutBytesPerElement .int8 = 1 ∧
    commOutBytesPerElement .fp8 = 1 ∧
    commOutBytesPerElement .int4 = 1 ∧
    bytesPerElement .int4 = 1 / 2 ∧
    commOutBytesPerElement .int4 = 2 * bytesPerElement .int4 ∧
    (m.output = .int4 → sc.lhsShardDim = some 1 ∨ sc.rhsShardDim = some 0 →
      (TPUv5e.calculateMultiNodeMetrics l2f m sc).communicationCost =
        (m.lhs.shape.1 : ℚ) * (m.rhs.shape.2 : ℚ) * 1 / 2 *
          l2f sc.numDevices / TPUv5e.iciBidiBandwidth ∧
      (sc.numDevices ≤ H100.maxGpusPerNode →
        (H100.calculateMultiNodeMetrics l2f m sc).communicationCost =
          (m.lhs.shape.1 : ℚ) * (m.rhs.shape.2 : ℚ) * 1 / 2 *
            l2f sc.numDevices / H100.nvlinkBandwidth) ∧
      m.calculateBytes.outputBytes = (m.lhs.shape.1 : ℚ) * (m.rhs.shape.2 : ℚ) * (1 / 2)) := by
  have h14 : commOutBytesPerElement .int4 = 1 := rfl
  have h12 : bytesPerElement .int4 = 1 / 2 := rfl
  refine ⟨rfl, rfl, rfl, rfl, rfl, rfl, by rw [h14, h12]; norm_num, ?_⟩
  intro hout h
  have hw : commOutBytesPerElement m.output = 1 := by
    rw [hout]; rfl
  refine ⟨?_, ?_, ?_⟩
  · rw [TPUv5e.multi_communicationCost, if_pos h, hw]
  · intro hn
    rw [H100.gmulti_communicationCost, if_pos h, if_pos hn, hw]
  · rw [calculateBytes_outputBytes, hout]
    norm_num [bytesPerElement]

/-- Witness for C10 at `mInt4` sharded over 4 devices along the reduction
axis. -/
theorem C10_commWidthTable_witness :
    (TPUv5e.calculateMultiNodeMetrics mlog2 mInt4 ⟨4, some 1, none⟩).communicationCost =
      (mInt4.lhs.shape.1 : ℚ) * (mInt4.rhs.shape.2 : ℚ) * 1 / 2 *
        mlog2 4 / TPUv5e.iciBidiBandwidth ∧
    mInt4.calculateBytes.outputBytes = (mInt4.lhs.shape.1 : ℚ) * (mInt4.rhs.shape.2 : ℚ) * (1 / 2) :=
  ⟨((C10_commWidthTable mlog2 mInt4 ⟨4, some 1, none⟩).2.2.2.2.2.2.2 rfl (Or.inl rfl)).1,
   ((C10_commWidthTable mlog2 mInt4 ⟨4, some 1, none⟩).2.2.2.2.2.2.2 rfl (Or.inl rfl)).2.2⟩

/-! Positivity facts feeding the sharding-efficiency bounds. -/

theorem flopsValue_pos (m : Matrix) (h1 : 0 < m.lhs.shape.1) (h2 : 0 < m.lhs.shape.2)
    (h3 : 0 < m.rhs.shape.2) : 0 < m.flopsValue := by
  rw [Matrix.flopsValue]
  have c1 : (0 : ℚ) < m.lhs.shape.1 := by exact_mod_cast h1
  have c2 : (0 : ℚ) < m.lhs.shape.2 := by exact_mod_cast h2
  have c3 : (0 : ℚ) < m.rhs.shape.2 := by exact_mod_cast h3
  positivity

theorem tpu_lowerBoundTime_pos (m : Matrix) (h1 : 0 < m.lhs.shape.1) (h2 : 0 < m.lhs.shape.2)
    (h3 : 0 < m.rhs.shape.2) : 0 < (TPUv5e.calculateSingleNodeMetrics m).lowerBoundTime := by
  rw [TPUv5e.single_lowerBoundTime]
  have hc : 0 < (TPUv5e.calculateSingleNodeMetrics m).computeTime := by
    rw [TPUv5e.single_computeTime]
    exact div_pos (flopsValue_pos m h1 h2 h3) (tpu_selectFlops_pos m)
  exact lt_of_lt_of_le hc (le_max_left _ _)

theorem gpu_lowerBoundTime_pos (m : Matrix) (h1 : 0 < m.lhs.shape.1) (h2 : 0 < m.lhs.shape.2)
    (h3 : 0 < m.rhs.shape.2) : 0 < (H100.calculateSingleNodeMetrics m).lowerBoundTime := by
  rw [H100.gsingle_lowerBoundTime]
  have hc : 0 < (H100.calculateSingleNodeMetrics m).computeTime := by
    rw [H100.gsingle_computeTime]
    exact div_pos (flopsValue_pos m h1 h2 h3) (gpu_selectFlops_pos m.lhs.dtype)
  exact lt_of_lt_of_le hc (le_max_left _ _)

theorem shardSize_pos (dim n : ℕ) (hd : 0 < dim) (hn : 1 ≤ n) : 0 < shardSize dim n := by
  rw [shardSize]
  have hq : (0 : ℚ) < (dim : ℚ) / (n : ℚ) := by
    have cd : (0 : ℚ) < dim := by exact_mod_cast hd
    have cn : (0 : ℚ) < n := by exact_mod_cast hn
    exact div_pos cd cn
  have hc : 0 < ⌈(dim : ℚ) / (n : ℚ)⌉ := Int.ceil_pos.mpr hq
  omega

theorem shardMatrix_lhs (m : Matrix) (sc : ShardingConfig) :
    (shardMatrix m sc).lhs =
      match sc.lhsShardDim with
      | none => m.lhs
      | some d =>
        { m.lhs with shape := setDim m.lhs.shape d (shardSize (getDim m.lhs.shape d) sc.numDevices) } := rfl

theorem shardMatrix_rhs (m : Matrix) (sc : ShardingConfig) :
    (shardMatrix m sc).rhs =
      match sc.rhsShardDim with
      | none => m.rhs
      | some d =>
        { m.rhs with shape := setDim m.rhs.shape d (shardSize (getDim m.rhs.shape d) sc.numDevices) } := rfl

theorem shardMatrix_dims_pos (m : Matrix) (sc : ShardingConfig) (h1 : 0 < m.lhs.shape.1)
    (h2 : 0 < m.lhs.shape.2) (h3 : 0 < m.rhs.shape.2) (hn : 1 ≤ sc.numDevices) :
    0 < (shardMatrix m sc).lhs.shape.1 ∧ 0 < (shardMatrix m sc).lhs.shape.2 ∧
      0 < (shardMatrix m sc).rhs.shape.2 := by
  refine ⟨?_, ?_, ?_⟩
  · rw [shardMatrix_lhs]
    rcases sc.lhsShardDim with _ | d
    · exact h1
    · fin_cases d
      · simpa [setDim, getDim] using shardSize_pos _ _ h1 hn
      · simpa [setDim, getDim] using h1
  · rw [shardMatrix_lhs]
    rcases sc.lhsShardDim with _ | d
    · exact h2
    · fin_cases d
      · simpa [setDim, getDim] using h2
      · simpa [setDim, getDim] using shardSize_pos _ _ h2 hn
  · rw [shardMatrix_rhs]
    rcases sc.rhsShardDim with _ | d
    · exact h3
    · fin_cases d
      · simpa [setDim, getDim] using h3
      · simpa [setDim, getDim] using shardSize_pos _ _ h3 hn

theorem commOutBytesPerElement_pos (d : dtype) : 0 < commOutBytesPerElement d := by
  rw [commOutBytesPerElement]
  split
  · norm_num
  · split <;> norm_num

theorem commOutBytes_nonneg (m : Matrix) :
    0 ≤ (m.lhs.shape.1 : ℚ) * (m.rhs.shape.2 : ℚ) * commOutBytesPerElement m.output :=
  mul_nonneg (mul_nonneg (Nat.cast_nonneg _) (Nat.cast_nonneg _))
    (commOutBytesPerElement_pos _).le

theorem tpu_communicationCost_nonneg (l2f : ℕ → ℚ) (m : Matrix) (sc : ShardingConfig)
    (hl : ∀ k, 0 ≤ l2f k) :
    0 ≤ (TPUv5e.calculateMultiNodeMetrics l2f m sc).communicationCost := by
  rw [TPUv5e.multi_communicationCost]
  split
  · exact div_nonneg
      (mul_nonneg (div_nonneg (commOutBytes_nonneg m) (by norm_num)) (hl _))
      (by norm_num [TPUv5e.iciBidiBandwidth])
  · exact le_refl 0

theorem gpu_communicationCost_nonneg (l2f : ℕ → ℚ) (m : Matrix) (sc : ShardingConfig)
    (hl : ∀ k, 0 ≤ l2f k) :
    0 ≤ (H100.calculateMultiNodeMetrics l2f m sc).communicationCost := by
  rw [H100.gmulti_communicationCost]
  split
  · split
    · exact div_nonneg
        (mul_nonneg (div_nonneg (commOutBytes_nonneg m) (by norm_num)) (hl _))
        (by norm_num [H100.nvlinkBandwidth])
    · refine add_nonneg ?_ ?_
      · exact div_nonneg
          (mul_nonneg (div_nonneg (commOutBytes_nonneg m) (by norm_num)) (hl _))
          (by norm_num [H100.nvlinkBandwidth])
      · exact div_nonneg
          (mul_nonneg (div_nonneg (commOutBytes_nonneg m) (Nat.cast_nonneg _)) (hl _))
          (by norm_num [H100.pcieBandwidth])
  · exact le_refl 0

/-- C7: for a matmul with positive shape dimensions and a configuration with
at least one device, both profiles report `shardingEfficiency` in `(0, 1]`
and a positive `speedupOverSingleDevice` (the log2 oracle is nonnegative,
as `Math.log2` is on arguments of at least one). -/
theorem C7_shardingEfficiencyBounds (l2f : ℕ → ℚ) (m : Matrix) (sc : ShardingConfig)
    (hl : ∀ k, 0 ≤ l2f k) (h1 : 0 < m.lhs.shape.1) (h2 : 0 < m.lhs.shape.2)
    (h3 : 0 < m.rhs.shape.2) (hn : 1 ≤ sc.numDevices) :
    (0 < (TPUv5e.calculateMultiNodeMetrics l2f m sc).shardingEfficiency ∧
      (TPUv5e.calculateMultiNodeMetrics l2f m sc).shardingEfficiency ≤ 1 ∧
      0 < (TPUv5e.calculateMultiNodeMetrics l2f m sc).speedupOverSingleDevice) ∧
    (0 < (H100.calculateMultiNodeMetrics l2f m sc).shardingEfficiency ∧
      (H100.calculateMultiNodeMetrics l2f m sc).shardingEfficiency ≤ 1 ∧
      0 < (H100.calculateMultiNodeMetrics l2f m sc).speedupOverSingleDevice) := by
  obtain ⟨s1, s2, s3⟩ := shardMatrix_dims_pos m sc h1 h2 h3 hn
  constructor
  · have hpl : 0 < (TPUv5e.calculateMultiNodeMetrics l2f m sc).perDeviceMetrics.lowerBoundTime := by
      rw [TPUv5e.multi_perDeviceMetrics]
      exact tpu_lowerBoundTime_pos _ s1 s2 s3
    have hcc := tpu_communicationCost_nonneg l2f m sc hl
    have hmax : 0 < max (TPUv5e.calculateMultiNodeMetrics l2f m sc).perDeviceMetrics.lowerBoundTime
        (TPUv5e.calculateMultiNodeMetrics l2f m sc).communicationCost :=
      lt_max_of_lt_left hpl
    refine ⟨?_, ?_, ?_⟩
    · rw [TPUv5e.multi_shardingEfficiency]
      exact div_pos hpl hmax
    · rw [TPUv5e.multi_shardingEfficiency]
      exact (div_le_one hmax).mpr (le_max_left _ _)
    · rw [TPUv5e.multi_speedupOverSingleDevice]
      exact div_pos (tpu_lowerBoundTime_pos m h1 h2 h3) hmax
  · have hpl : 0 < (H100.calculateMultiNodeMetrics l2f m sc).perDeviceMetrics.lowerBoundTime := by
      rw [H100.gmulti_perDeviceMetrics]
      exact gpu_lowerBoundTime_pos _ s1 s2 s3
    have hcc := gpu_communicationCost_nonneg l2f m sc hl
    have hmax : 0 < max (H100.calculateMultiNodeMetrics l2f m sc).perDeviceMetrics.lowerBoundTime
        (H100.calculateMultiNodeMetrics l2f m sc).communicationCost :=
      lt_max_of_lt_left hpl
    refine ⟨?_, ?_, ?_⟩
    · rw [H100.gmulti_shardingEfficiency]
      exact div_pos hpl hmax
    · rw [H100.gmulti_shardingEfficiency]
      exact (div_le_one hmax).mpr (le_max_left _ _)
    · rw [H100.gmulti_speedupOverSingleDevice]
      exact div_pos (gpu_lowerBoundTime_pos m h1 h2 h3) hmax

/-- Witness for C7 at `mEx` sharded along the reduction axis over 4 devices,
with the exact power-of-two log2 oracle. -/
theorem C7_shardingEfficiencyBounds_witness :
    (0 < (TPUv5e.calculateMultiNodeMetrics mlog2 mEx ⟨4, some 1, none⟩).shardingEfficiency ∧
      (TPUv5e.calculateMultiNodeMetrics mlog2 mEx ⟨4, some 1, none⟩).shardingEfficiency ≤ 1 ∧
      0 < (TPUv5e.calculateMultiNodeMetrics mlog2 mEx ⟨4, some 1, none⟩).speedupOverSingleDevice) ∧
    (0 < (H100.calculateMultiNodeMetrics mlog2 mEx ⟨4, some 1, none⟩).shardingEfficiency ∧
      (H100.calculateMultiNodeMetrics mlog2 mEx ⟨4, some 1, none⟩).shardingEfficiency ≤ 1 ∧
      0 < (H100.calculateMultiNodeMetrics mlog2 mEx ⟨4, some 1, none⟩).speedupOverSingleDevice) :=
  C7_shardingEfficiencyBounds mlog2 mEx ⟨4, some 1, none⟩
    (fun k => Nat.cast_nonneg (Nat.log2 k)) (by decide) (by decide) (by decide) (by decide)

/-- C8: on both profiles, the metrics and analysis calls fail with the
NotFound error whenever the identifier is not registered (no partial results:
the whole call returns the error), and the metrics call fails with the
MissingConfiguration error whenever a multi-device analysis is requested with
no sharding configuration — the check never looks at a device count. -/
theorem C8_errorHandling (l2f : ℕ → ℚ) (pow10 : ℚ → ℚ) (matrices : List Matrix)
    (Id : String) (mN : Bool) (sC : Option ShardingConfig) :
    (matrices.find? (fun mx => mx.id = Id) = none →
      TPUv5e.performanceMetrics l2f matrices Id mN sC = .error .notFound ∧
      H100.performanceMetrics l2f matrices Id mN sC = .error .notFound ∧
      TPUv5e.analyze pow10 matrices Id = .error .notFound ∧
      H100.analyze pow10 matrices Id = .error .notFound) ∧
    (matrices.find? (fun mx => mx.id = Id) ≠ none → mN = true → sC = none →
      TPUv5e.performanceMetrics l2f matrices Id mN sC = .error .missingConfiguration ∧
      H100.performanceMetrics l2f matrices Id mN sC = .error .missingConfiguration) := by
  constructor
  · intro h
    refine ⟨?_, ?_, ?_, ?_⟩
    · simp only [TPUv5e.performanceMetrics, h]
    · simp only [H100.performanceMetrics, h]
    · simp only [TPUv5e.analyze, h]
    · simp only [H100.analyze, h]
  · intro h hm hs
    subst hm
    subst hs
    obtain ⟨mx, hfind⟩ := Option.ne_none_iff_exists'.mp h
    constructor
    · simp [TPUv5e.performanceMetrics, hfind]
    · simp [H100.performanceMetrics, hfind]

/-- Witness for C8: an unknown identifier on a one-entry registry, and a
multi-device request carrying no configuration on a known identifier. -/
theorem C8_errorHandling_witness :
    TPUv5e.performanceMetrics mlog2 [mEx] "zzz" false none = .error .notFound ∧
    H100.performanceMetrics mlog2 [mEx] "zzz" false none = .error .notFound ∧
    TPUv5e.analyze (fun i => i) [mEx] "zzz" = .error .notFound ∧
    H100.analyze (fun i => i) [mEx] "zzz" = .error .notFound ∧
    TPUv5e.performanceMetrics mlog2 [mEx] "a" true none = .error .missingConfiguration ∧
    H100.performanceMetrics mlog2 [mEx] "a" true none = .error .missingConfiguration := by
  have hnone : ([mEx].find? (fun mx => mx.id = "zzz")) = none := by
    simp [mEx]
  have hsome : ([mEx].find? (fun mx => mx.id = "a")) ≠ none := by
    simp [mEx]
  obtain ⟨p1, p2, p3, p4⟩ :=
    (C8_errorHandling mlog2 (fun i => i) [mEx] "zzz" false none).1 hnone
  obtain ⟨q1, q2⟩ :=
    (C8_errorHandling mlog2 (fun i => i) [mEx] "a" true none).2 hsome rfl rfl
  exact ⟨p1, p2, p3, p4, q1, q2⟩

set_option maxRecDepth 8000 in
theorem rooflineTicks_length : (rooflineTicks 100 (-(2 ^ 55))).length = 50 := by decide

theorem rooflineIndices_length : rooflineIndices.length = 50 := by
  unfold rooflineIndices
  rw [List.length_map, rooflineTicks_length]

theorem tpu_roofline_intensityPoints (pow10 : ℚ → ℚ) (m : Matrix) (met : TPUNodeMetrics) :
    (TPUv5e.generateRooflineData pow10 m met).intensityPoints =
      rooflineIndices.map (fun i =>
        { intensity := pow10 i
          achievableFlops :=
            min (if m.lhs.dtype = .int8 then TPUv5e.flopsPerSecondINT8 else TPUv5e.flopsPerSecondBF16)
              (TPUv5e.hbmBandwidth * pow10 i)
          peakFlops := if m.lhs.dtype = .int8 then TPUv5e.flopsPerSecondINT8 else TPUv5e.flopsPerSecondBF16
          memoryBound := decide (pow10 i < met.peakHardwareIntensity) : RooflinePoint }) := rfl

theorem gpu_roofline_intensityPoints (pow10 : ℚ → ℚ) (m : Matrix) (met : GPUNodeMetrics) :
    (H100.generateRooflineData pow10 m met).intensityPoints =
      rooflineIndices.map (fun i =>
        { intensity := pow10 i
          achievableFlops :=
            min (H100.selectFlopsPerSecond m.lhs.dtype) (H100.hbmBandwidth * pow10 i)
          peakFlops := H100.selectFlopsPerSecond m.lhs.dtype
          memoryBound := decide (pow10 i < met.peakHardwareIntensity) : RooflinePoint }) := rfl

/-- C6 (what the code does): the accumulated floating-point loop
`for (i = -1; i <= 4; i += 0.1)` runs 50 iterations, not 51 — after 50
additions the index is `4.000000000000002 > 4` and the intended `i = 4`
sample is skipped — so both roofline generators return exactly 50 points;
each point's `achievableFlops = min(peakFlops, hbmBandwidth * intensity)`
is at most its `peakFlops`. -/
theorem C6_rooflinePointCount (pow10 : ℚ → ℚ) (m : Matrix) :
    (TPUv5e.generateRooflineData pow10 m (TPUv5e.calculateSingleNodeMetrics m)).intensityPoints.length = 50 ∧
    (H100.generateRooflineData pow10 m (H100.calculateSingleNodeMetrics m)).intensityPoints.length = 50 ∧
    ((TPUv5e.generateRooflineData pow10 m (TPUv5e.calculateSingleNodeMetrics m)).intensityPoints.all
      (fun pt => decide (pt.achievableFlops ≤ pt.peakFlops)) = true) ∧
    ((H100.generateRooflineData pow10 m (H100.calculateSingleNodeMetrics m)).intensityPoints.all
      (fun pt => decide (pt.achievableFlops ≤ pt.peakFlops)) = true) := by
  refine ⟨?_, ?_, ?_, ?_⟩
  · rw [tpu_roofline_intensityPoints, List.length_map, rooflineIndices_length]
  · rw [gpu_roofline_intensityPoints, List.length_map, rooflineIndices_length]
  · rw [tpu_roofline_intensityPoints, List.all_eq_true]
    intro pt hpt
    rw [List.mem_map] at hpt
    obtain ⟨i, _, rfl⟩ := hpt
    exact decide_eq_true (min_le_left _ _)
  · rw [gpu_roofline_intensityPoints, List.all_eq_true]
    intro pt hpt
    rw [List.mem_map] at hpt
    obtain ⟨i, _, rfl⟩ := hpt
    exact decide_eq_true (min_le_left _ _)

end Gpu
